import Mathlib

/-
Verification of the upload-and-render controller in
`static/js/app.js` (class `ImageClassifier`).

The controller state is embedded as a record of the fields the JavaScript
reads and writes: `currentFile` plus the DOM-visibility flags and texts it
toggles.  Methods become pure state transformers; `classifyImage`, whose
only suspension point is the awaited `fetch`, is split into its synchronous
prefix (`classifyStart`, up to and including issuing the request) and the
continuation that consumes the fetch outcome.  Externally visible actions
(HTTP requests, error toasts, rendered results, the processing indicator)
are additionally recorded as an effect trace so that claims about "issues a
request" or "cleanup runs last" can be stated.
-/

/-- A browser `File` as `app.js` observes it: `name`, `size` in bytes and
the declared MIME `type`. -/
structure BrowserFile where
  name : String
  size : Nat
  type : String
deriving DecidableEq, Repr

/-- One element of the `predictions` array of a response body.  `cls` is the
JSON field `class` (a Lean keyword); `probability` is kept as the text the
template literal interpolates, since the client applies no arithmetic to
it. -/
structure Prediction where
  cls : String
  probability : String
deriving DecidableEq, Repr

/-- One rendered row of `#predictions-list`, as produced by
`displayPredictions`: the badge number (`index + 1`), the `h6` label
(`prediction.class`), the confidence text and the confidence-bar width
(both `prediction.probability`). -/
structure PredictionRow where
  rank : Nat
  label : String
  confidenceText : String
  barWidth : String
deriving DecidableEq, Repr

/-- The mutable state of one `ImageClassifier` instance together with the
DOM it manipulates: `currentFile`, the `d-none` visibility of the elements
it toggles, the texts it sets, the list of error toasts appended to the
body, the rendered prediction rows, and the file handed to the
`FileReader` preview. -/
structure ClassifierState where
  currentFile : Option BrowserFile
  fileInfoVisible : Bool
  classifyBtnVisible : Bool
  resultsSectionVisible : Bool
  resultsDisplayVisible : Bool
  processingVisible : Bool
  fileInputValue : String
  fileNameText : String
  errors : List String
  predictionRows : List PredictionRow
  processingTimeText : String
  previewOf : Option BrowserFile
deriving DecidableEq, Repr

/-- `showError(message)`: creates an error toast and appends it to the
document body. -/
def showError (s : ClassifierState) (message : String) : ClassifierState :=
  { s with errors := s.errors ++ [message] }

/-- `displayFileInfo(file)`: sets the file-name text and unhides
`#file-info`.  The size text produced by `formatFileSize` is display-only
floating-point formatting and is not modeled. -/
def displayFileInfo (s : ClassifierState) (file : BrowserFile) : ClassifierState :=
  { s with fileNameText := file.name, fileInfoVisible := true }

/-- `showClassifyButton()`: unhides `#classify-btn`. -/
def showClassifyButton (s : ClassifierState) : ClassifierState :=
  { s with classifyBtnVisible := true }

/-- `hideResults()`: hides `#results-section` and `#results-display`. -/
def hideResults (s : ClassifierState) : ClassifierState :=
  { s with resultsSectionVisible := false, resultsDisplayVisible := false }

/-- `clearFile()`: clears `currentFile`, hides `#file-info`,
`#classify-btn` and `#results-section`, and resets the file input value. -/
def clearFile (s : ClassifierState) : ClassifierState :=
  { s with currentFile := none, fileInfoVisible := false,
           classifyBtnVisible := false, resultsSectionVisible := false,
           fileInputValue := "" }

/-- `showProcessing()`: unhides `#processing` and `#results-section`,
hides `#results-display`. -/
def showProcessing (s : ClassifierState) : ClassifierState :=
  { s with processingVisible := true, resultsSectionVisible := true,
           resultsDisplayVisible := false }

/-- `hideProcessing()`: hides `#processing`. -/
def hideProcessing (s : ClassifierState) : ClassifierState :=
  { s with processingVisible := false }

/-- `displayImagePreview()`: hands `this.currentFile` to a `FileReader`
whose result becomes the preview image source. -/
def displayImagePreview (s : ClassifierState) : ClassifierState :=
  { s with previewOf := s.currentFile }

/-- `isValidImageFile(file)`: membership of the declared MIME type in the
`validTypes` array. -/
def validTypes : List String :=
  ["image/png", "image/jpeg", "image/jpg", "image/gif", "image/bmp", "image/tiff"]

/-- `isValidImageFile(file)` from `app.js` lines 80-83. -/
def isValidImageFile (file : BrowserFile) : Bool :=
  validTypes.contains file.type

/-- `handleFileSelect(file)` from `app.js` lines 59-78: an absent file is
ignored; an invalid type or an oversize file only raises an error toast;
otherwise the file becomes `currentFile`, its info and the classify button
are shown and previous results are hidden. -/
def handleFileSelect (s : ClassifierState) (file : Option BrowserFile) : ClassifierState :=
  match file with
  | none => s
  | some f =>
    if ! isValidImageFile f then
      showError s "Please select a valid image file (PNG, JPG, JPEG, GIF, BMP, TIFF)"
    else if f.size > 16 * 1024 * 1024 then
      showError s "File size must be less than 16MB"
    else
      hideResults (showClassifyButton (displayFileInfo { s with currentFile := some f } f))

/-- The validation outcome of a candidate file, with the rejection reasons
of the two guard branches of `handleFileSelect`. -/
inductive ValidationResult where
  | accepted
  | rejectedUnsupportedType
  | rejectedTooLarge
deriving DecidableEq, Repr

/-- The two guards of `handleFileSelect` (lines 63 and 69) as one pure
function: the type check runs first, then the 16 MB size check. -/
def validate (f : BrowserFile) : ValidationResult :=
  if ! isValidImageFile f then ValidationResult.rejectedUnsupportedType
  else if f.size > 16 * 1024 * 1024 then ValidationResult.rejectedTooLarge
  else ValidationResult.accepted

/-- `renderRow i p`: the row the `forEach` body of `displayPredictions`
creates for `prediction = p` at `index = i`. -/
def renderRow (i : Nat) (p : Prediction) : PredictionRow :=
  { rank := i + 1, label := p.cls, confidenceText := p.probability,
    barWidth := p.probability }

/-- `displayPredictions(predictions)` from `app.js` lines 191-228: clears
`#predictions-list` and appends one row per prediction, in array order. -/
def displayPredictions (preds : List Prediction) : List PredictionRow :=
  preds.enum.map (fun ip => renderRow ip.1 ip.2)

/-- `displayResults(result)` from `app.js` lines 168-181: unhides the
result containers, triggers the preview, renders the predictions and sets
the processing-time text. -/
def displayResults (s : ClassifierState) (preds : List Prediction)
    (time : String) : ClassifierState :=
  let s1 := { s with resultsSectionVisible := true, resultsDisplayVisible := true }
  let s2 := displayImagePreview s1
  let s3 := { s2 with predictionRows := displayPredictions preds }
  { s3 with processingTimeText := time }

/-- The body that `await response.json()` yields: either the promise
rejects (`malformed`), or an object with a `success` flag, an optional
`error` string, a `predictions` array and a `processing_time` value. -/
inductive ResponseBody where
  | malformed
  | parsed (success : Bool) (error : Option String)
      (predictions : List Prediction) (processingTime : String)
deriving DecidableEq, Repr

/-- The outcome of the awaited `fetch`: the promise rejects
(`networkError`), or a response arrives with its `ok` flag (`status` in
the 2xx range), numeric status and body. -/
inductive FetchOutcome where
  | networkError
  | response (ok : Bool) (status : Nat) (body : ResponseBody)
deriving DecidableEq, Repr

/-- Externally visible actions of `classifyImage`, in the order they are
performed. -/
inductive Effect where
  | showProcessingEff
  | httpRequest (file : BrowserFile)
  | displayResultsEff (preds : List Prediction) (time : String)
  | showErrorEff (message : String)
  | hideProcessingEff
deriving DecidableEq, Repr

/-- Whether an effect is the issuing of an HTTP request to `/classify`. -/
def isHttpRequest : Effect → Bool
  | Effect.httpRequest _ => true
  | _ => false

/-- Whether an effect is the rendering of a success result. -/
def isDisplayResults : Effect → Bool
  | Effect.displayResultsEff _ _ => true
  | _ => false

/-- Number of HTTP requests issued in an effect trace. -/
def requestCount (es : List Effect) : Nat :=
  es.countP isHttpRequest

/-- The message of the catch block of `classifyImage` (line 152). -/
def genericCatchMsg : String :=
  "An error occurred during classification. Please try again."

/-- `result.error || 'Classification failed'` (line 147): the server text
when it is a present, non-empty (truthy) string, else the fallback. -/
def errorMessage (e : Option String) : String :=
  match e with
  | some msg => if msg = "" then "Classification failed" else msg
  | none => "Classification failed"

/-- The synchronous prefix of `classifyImage()` (lines 121-136): nothing
happens without a `currentFile`; otherwise the processing indicator is
shown and one request carrying the file is issued.  There is no other
guard before the `fetch`. -/
def classifyStart (s : ClassifierState) : ClassifierState × List Effect :=
  match s.currentFile with
  | none => (s, [])
  | some f =>
      (showProcessing s, [Effect.showProcessingEff, Effect.httpRequest f])

/-- The continuation of `classifyImage()` after the awaited `fetch`
resolves (lines 138-155): a non-ok status throws into the catch block, as
does a body that fails to parse; `success` renders the results, otherwise
the server error (or fallback) is shown; the `finally` block always hides
the processing indicator last. -/
def classifyResume (s : ClassifierState) (outcome : FetchOutcome) :
    ClassifierState × List Effect :=
  match outcome with
  | FetchOutcome.networkError =>
      (hideProcessing (showError s genericCatchMsg),
       [Effect.showErrorEff genericCatchMsg, Effect.hideProcessingEff])
  | FetchOutcome.response ok _status body =>
      if ! ok then
        (hideProcessing (showError s genericCatchMsg),
         [Effect.showErrorEff genericCatchMsg, Effect.hideProcessingEff])
      else
        match body with
        | ResponseBody.malformed =>
            (hideProcessing (showError s genericCatchMsg),
             [Effect.showErrorEff genericCatchMsg, Effect.hideProcessingEff])
        | ResponseBody.parsed success err preds time =>
            if success then
              (hideProcessing (displayResults s preds time),
               [Effect.displayResultsEff preds time, Effect.hideProcessingEff])
            else
              (hideProcessing (showError s (errorMessage err)),
               [Effect.showErrorEff (errorMessage err), Effect.hideProcessingEff])

/-- One whole run of `classifyImage()` given the fetch outcome: the
synchronous prefix followed by the continuation. -/
def classifyImage (s : ClassifierState) (outcome : FetchOutcome) :
    ClassifierState × List Effect :=
  match s.currentFile with
  | none => (s, [])
  | some f =>
      let s1 := showProcessing s
      let r := classifyResume s1 outcome
      (r.1, Effect.showProcessingEff :: Effect.httpRequest f :: r.2)

/-- A file that passed both guards of `handleFileSelect`: accepted MIME
type and size at most `16 * 1024 * 1024` bytes. -/
def fileOk (f : BrowserFile) : Bool :=
  isValidImageFile f && decide (f.size ≤ 16 * 1024 * 1024)

/-- The implicit controller invariant: whenever `currentFile` is set, the
file it holds passed validation. -/
def fileInvariant (s : ClassifierState) : Bool :=
  s.currentFile.all fileOk

/-- The state the `ImageClassifier` constructor establishes on a fresh
page: no file, everything result-related hidden. -/
def initialState : ClassifierState :=
  { currentFile := none, fileInfoVisible := false, classifyBtnVisible := false,
    resultsSectionVisible := false, resultsDisplayVisible := false,
    processingVisible := false, fileInputValue := "", fileNameText := "",
    errors := [], predictionRows := [], processingTimeText := "",
    previewOf := none }

/-- A 2 MB JPEG, accepted by validation. -/
def jpegFile : BrowserFile :=
  { name := "photo.jpg", size := 2097152, type := "image/jpeg" }

/-- A PNG exactly at the 16 MiB boundary, accepted by validation. -/
def pngFile16M : BrowserFile :=
  { name := "photo.png", size := 16777216, type := "image/png" }

/-- A PNG one byte over the 16 MiB boundary, rejected as too large. -/
def pngFileTooBig : BrowserFile :=
  { name := "big.png", size := 16777217, type := "image/png" }

/-- A non-image file, large as well, rejected by the type check. -/
def textFile : BrowserFile :=
  { name := "notes.txt", size := 1000000000, type := "text/plain" }

/-- The state after selecting `jpegFile` on a fresh page. -/
def selState : ClassifierState :=
  handleFileSelect initialState (some jpegFile)

/-- The state while a classification request for `jpegFile` is in flight:
`classifyImage` has run its synchronous prefix (processing indicator shown,
request issued) and is awaiting the response. -/
def processingState : ClassifierState :=
  (classifyStart selState).1

theorem classifyStart_currentFile (s : ClassifierState) :
    (classifyStart s).1.currentFile = s.currentFile := by
  unfold classifyStart
  cases h : s.currentFile with
  | none => exact h
  | some f => simp [showProcessing, h]

theorem classifyResume_currentFile (s : ClassifierState) (outcome : FetchOutcome) :
    (classifyResume s outcome).1.currentFile = s.currentFile := by
  unfold classifyResume
  rcases outcome with _ | ⟨ok, status, body⟩
  · rfl
  · cases ok with
    | false => rfl
    | true =>
        rcases body with _ | ⟨success, err, preds, time⟩
        · rfl
        · cases success with
          | false => rfl
          | true =>
              simp [hideProcessing, displayResults, displayImagePreview]

theorem classifyImage_currentFile (s : ClassifierState) (outcome : FetchOutcome) :
    (classifyImage s outcome).1.currentFile = s.currentFile := by
  unfold classifyImage
  cases h : s.currentFile with
  | none => exact h
  | some f =>
      have h1 := classifyResume_currentFile (showProcessing s) outcome
      simpa [showProcessing, h] using h1

theorem classifyImage_of_none (s : ClassifierState) (outcome : FetchOutcome)
    (h : s.currentFile = none) : classifyImage s outcome = (s, []) := by
  unfold classifyImage
  rw [h]

theorem handleFileSelect_currentFile (s : ClassifierState) (f : BrowserFile) :
    (handleFileSelect s (some f)).currentFile =
      if validate f = ValidationResult.accepted then some f else s.currentFile := by
  unfold handleFileSelect validate
  by_cases ht : isValidImageFile f
  · by_cases hs : f.size > 16 * 1024 * 1024
    · simp [ht, hs, showError]
    · simp [ht, hs, hideResults, showClassifyButton, displayFileInfo]
  · simp [ht, showError]

theorem handleFileSelect_errors_rejected (s : ClassifierState) (f : BrowserFile)
    (h : validate f ≠ ValidationResult.accepted) :
    ∃ msg, msg ≠ "" ∧ (handleFileSelect s (some f)).errors = s.errors ++ [msg] := by
  unfold handleFileSelect
  unfold validate at h
  by_cases ht : isValidImageFile f
  · by_cases hs : f.size > 16 * 1024 * 1024
    · exact ⟨"File size must be less than 16MB", by decide, by simp [ht, hs, showError]⟩
    · simp [ht, hs] at h
  · exact ⟨"Please select a valid image file (PNG, JPG, JPEG, GIF, BMP, TIFF)",
      by decide, by simp [ht, showError]⟩

theorem classifyStart_requests_of_some (s : ClassifierState) (f : BrowserFile)
    (h : s.currentFile = some f) : requestCount (classifyStart s).2 = 1 := by
  unfold classifyStart
  rw [h]
  simp [requestCount, List.countP_cons, List.countP_nil, isHttpRequest]

/-- Claim C1 is false on the code: `processingState` is a reachable state
with a classification request in flight (the processing indicator is shown
and `currentFile` is set), and a second invocation of `classifyImage`
there still issues an HTTP request — `classifyImage` has no single-flight
guard, only the `currentFile` null check. -/
theorem C1_counterexample :
    processingState.currentFile = some jpegFile
    ∧ processingState.processingVisible = true
    ∧ ¬ requestCount (classifyStart processingState).2 = 0 := by
  refine ⟨by decide, by decide, by decide⟩

/-- Claim C1 (amended): the code has no single-flight guard. Whenever a
file is selected — in particular while a previous request is still pending
— invoking `classifyImage` issues exactly one further HTTP request; it is
a no-op (no request, no state change) only when no file is selected. -/
theorem C1_no_single_flight (s : ClassifierState) :
    (∀ f, s.currentFile = some f → requestCount (classifyStart s).2 = 1)
    ∧ (s.currentFile = none → classifyStart s = (s, [])) := by
  constructor
  · intro f hf
    unfold classifyStart
    rw [hf]
    simp [requestCount, List.countP_cons, List.countP_nil, isHttpRequest]
  · intro h
    unfold classifyStart
    rw [h]

theorem C1_no_single_flight_witness :
    requestCount (classifyStart processingState).2 = 1 :=
  (C1_no_single_flight processingState).1 jpegFile (by decide)

/-- Claim C2: for every file of an accepted MIME type, validation accepts
it iff its size is at most 16777216 bytes, and rejects it as too large iff
its size is at least 16777217 bytes. -/
theorem C2_size_boundary (f : BrowserFile) (h : isValidImageFile f = true) :
    (validate f = ValidationResult.accepted ↔ f.size ≤ 16777216)
    ∧ (validate f = ValidationResult.rejectedTooLarge ↔ 16777217 ≤ f.size) := by
  have hv : validate f =
      (if f.size > 16 * 1024 * 1024 then ValidationResult.rejectedTooLarge
       else ValidationResult.accepted) := by
    unfold validate
    rw [h]
    rfl
  rw [hv]
  by_cases hs : f.size > 16 * 1024 * 1024
  · rw [if_pos hs]
    constructor
    · constructor
      · intro hv2
        exact absurd hv2 (by decide)
      · intro hle
        exfalso
        omega
    · constructor
      · intro _
        omega
      · intro _
        rfl
  · rw [if_neg hs]
    constructor
    · constructor
      · intro _
        omega
      · intro _
        rfl
    · constructor
      · intro hv2
        exact absurd hv2 (by decide)
      · intro hle
        exfalso
        omega

theorem C2_size_boundary_witness :
    validate pngFile16M = ValidationResult.accepted
    ∧ validate pngFileTooBig = ValidationResult.rejectedTooLarge :=
  ⟨((C2_size_boundary pngFile16M (by decide)).1).2 (by decide),
   ((C2_size_boundary pngFileTooBig (by decide)).2).2 (by decide)⟩

/-- Claim C3: the MIME-type check runs before the size check — every file
whose declared type is outside the accepted set is rejected as
unsupported-type, whatever its size. -/
theorem C3_unsupported_type (f : BrowserFile)
    (h : validTypes.contains f.type = false) :
    validate f = ValidationResult.rejectedUnsupportedType := by
  unfold validate isValidImageFile
  rw [h]
  rfl

theorem C3_unsupported_type_witness :
    validate textFile = ValidationResult.rejectedUnsupportedType
    ∧ 16777216 < textFile.size :=
  ⟨C3_unsupported_type textFile (by decide), by decide⟩

/-- Claim C4: for every controller state and candidate file rejected by
validation, `handleFileSelect` leaves `currentFile` unchanged and appends
one error toast with a non-empty message; only an accepted candidate
replaces `currentFile`. -/
theorem C4_rejected_selection_frame (s : ClassifierState) (f : BrowserFile) :
    (validate f ≠ ValidationResult.accepted →
      (handleFileSelect s (some f)).currentFile = s.currentFile
      ∧ ∃ msg, msg ≠ "" ∧ (handleFileSelect s (some f)).errors = s.errors ++ [msg])
    ∧ (validate f = ValidationResult.accepted →
      (handleFileSelect s (some f)).currentFile = some f) := by
  constructor
  · intro h
    refine ⟨?_, handleFileSelect_errors_rejected s f h⟩
    rw [handleFileSelect_currentFile, if_neg h]
  · intro h
    rw [handleFileSelect_currentFile, if_pos h]

theorem C4_rejected_selection_frame_witness :
    (handleFileSelect selState (some pngFileTooBig)).currentFile = selState.currentFile
    ∧ ∃ msg, msg ≠ ""
        ∧ (handleFileSelect selState (some pngFileTooBig)).errors
            = selState.errors ++ [msg] :=
  (C4_rejected_selection_frame selState pngFileTooBig).1 (by decide)

/-- Claim C5: after `clearFile` no file is selected and the file-info,
classify-button and results areas are hidden (the Idle state), a
subsequent `classifyImage` is a no-op that issues no request and changes
nothing, and this persists through any rejected selection. -/
theorem C5_clear_then_classify_noop (s : ClassifierState) (outcome : FetchOutcome) :
    (clearFile s).currentFile = none
    ∧ (clearFile s).fileInfoVisible = false
    ∧ (clearFile s).classifyBtnVisible = false
    ∧ (clearFile s).resultsSectionVisible = false
    ∧ classifyImage (clearFile s) outcome = (clearFile s, [])
    ∧ (∀ f, validate f ≠ ValidationResult.accepted →
        classifyImage (handleFileSelect (clearFile s) (some f)) outcome
          = (handleFileSelect (clearFile s) (some f), [])) := by
  refine ⟨rfl, rfl, rfl, rfl, ?_, ?_⟩
  · exact classifyImage_of_none _ _ rfl
  · intro f h
    apply classifyImage_of_none
    rw [handleFileSelect_currentFile, if_neg h]
    rfl

theorem C5_clear_then_classify_noop_witness :
    classifyImage (clearFile selState) FetchOutcome.networkError
      = (clearFile selState, [])
    ∧ classifyImage (handleFileSelect (clearFile selState) (some textFile))
        FetchOutcome.networkError
      = (handleFileSelect (clearFile selState) (some textFile), []) :=
  ⟨(C5_clear_then_classify_noop selState FetchOutcome.networkError).2.2.2.2.1,
   (C5_clear_then_classify_noop selState FetchOutcome.networkError).2.2.2.2.2
     textFile (by decide)⟩

/-- Claim C6: on every exit path of `classifyImage` with a selected file —
success, success flag false, non-2xx status, malformed body or network
error — the effect trace ends with hiding the processing indicator, and
the indicator is hidden in the final state. -/
theorem C6_cleanup (s : ClassifierState) (outcome : FetchOutcome)
    (h : s.currentFile ≠ none) :
    (classifyImage s outcome).2.getLast? = some Effect.hideProcessingEff
    ∧ (classifyImage s outcome).1.processingVisible = false := by
  rcases hcf : s.currentFile with _ | f
  · exact absurd hcf h
  · unfold classifyImage
    rw [hcf]
    rcases outcome with _ | ⟨ok, status, body⟩
    · exact ⟨rfl, rfl⟩
    · cases ok with
      | false => exact ⟨rfl, rfl⟩
      | true =>
          rcases body with _ | ⟨success, err, preds, time⟩
          · exact ⟨rfl, rfl⟩
          · cases success with
            | false => exact ⟨rfl, rfl⟩
            | true => exact ⟨rfl, rfl⟩

theorem C6_cleanup_witness :
    (classifyImage selState FetchOutcome.networkError).2.getLast?
      = some Effect.hideProcessingEff
    ∧ (classifyImage selState FetchOutcome.networkError).1.processingVisible = false :=
  C6_cleanup selState FetchOutcome.networkError (by decide)

/-- Claim C7: a well-formed 2xx response with `success = false` shows the
server message verbatim when it is a present non-empty string and the
fallback text otherwise, never a result; any non-2xx status, whatever the
body, likewise shows an error and never a result. -/
theorem C7_failure_normalization (s : ClassifierState) (f : BrowserFile)
    (hf : s.currentFile = some f) :
    (∀ msg preds time, msg ≠ "" →
      Effect.showErrorEff msg ∈
        (classifyImage s (FetchOutcome.response true 200
          (ResponseBody.parsed false (some msg) preds time))).2)
    ∧ (∀ err preds time, err = none ∨ err = some "" →
      Effect.showErrorEff "Classification failed" ∈
        (classifyImage s (FetchOutcome.response true 200
          (ResponseBody.parsed false err preds time))).2)
    ∧ (∀ err preds time p t,
      Effect.displayResultsEff p t ∉
        (classifyImage s (FetchOutcome.response true 200
          (ResponseBody.parsed false err preds time))).2)
    ∧ (∀ status body,
      Effect.showErrorEff genericCatchMsg ∈
        (classifyImage s (FetchOutcome.response false status body)).2
      ∧ ∀ p t, Effect.displayResultsEff p t ∉
        (classifyImage s (FetchOutcome.response false status body)).2) := by
  refine ⟨?_, ?_, ?_, ?_⟩
  · intro msg preds time hmsg
    unfold classifyImage
    rw [hf]
    simp [classifyResume, errorMessage, hmsg]
  · intro err preds time herr
    unfold classifyImage
    rw [hf]
    rcases herr with h1 | h1 <;> subst h1 <;> simp [classifyResume, errorMessage]
  · intro err preds time p t
    unfold classifyImage
    rw [hf]
    simp [classifyResume, errorMessage]
  · intro status body
    constructor
    · unfold classifyImage
      rw [hf]
      simp [classifyResume]
    · intro p t
      unfold classifyImage
      rw [hf]
      simp [classifyResume]

theorem C7_failure_normalization_witness :
    Effect.showErrorEff "server exploded" ∈
      (classifyImage selState (FetchOutcome.response true 200
        (ResponseBody.parsed false (some "server exploded") [] "0.1"))).2
    ∧ Effect.showErrorEff genericCatchMsg ∈
      (classifyImage selState
        (FetchOutcome.response false 500 ResponseBody.malformed)).2 :=
  ⟨(C7_failure_normalization selState jpegFile (by decide)).1
      "server exploded" [] "0.1" (by decide),
   ((C7_failure_normalization selState jpegFile (by decide)).2.2.2
      500 ResponseBody.malformed).1⟩

/-- Claim C8: when the endpoint answers with a non-2xx status, the
controller appends one non-empty error message, leaves `currentFile`
unchanged, and a retry of `classifyImage` from the resulting state issues
a request again. -/
theorem C8_http_error_frame (s : ClassifierState) (f : BrowserFile)
    (hf : s.currentFile = some f) (status : Nat) (body : ResponseBody) :
    (classifyImage s (FetchOutcome.response false status body)).1.currentFile = some f
    ∧ (classifyImage s (FetchOutcome.response false status body)).1.errors
        = s.errors ++ [genericCatchMsg]
    ∧ genericCatchMsg ≠ ""
    ∧ requestCount (classifyStart
        (classifyImage s (FetchOutcome.response false status body)).1).2 = 1 := by
  have hc : (classifyImage s (FetchOutcome.response false status body)).1.currentFile
      = some f := by
    rw [classifyImage_currentFile]
    exact hf
  refine ⟨hc, ?_, by decide, classifyStart_requests_of_some _ f hc⟩
  unfold classifyImage
  rw [hf]
  rfl

theorem C8_http_error_frame_witness :
    (classifyImage selState
      (FetchOutcome.response false 500 ResponseBody.malformed)).1.currentFile
        = some jpegFile
    ∧ (classifyImage selState
      (FetchOutcome.response false 500 ResponseBody.malformed)).1.errors
        = selState.errors ++ [genericCatchMsg] :=
  ⟨(C8_http_error_frame selState jpegFile (by decide) 500 ResponseBody.malformed).1,
   (C8_http_error_frame selState jpegFile (by decide) 500 ResponseBody.malformed).2.1⟩

theorem enumFrom_render_label (n : Nat) (l : List Prediction) :
    ((List.enumFrom n l).map fun ip => (renderRow ip.1 ip.2).label)
      = l.map Prediction.cls := by
  induction l generalizing n with
  | nil => rfl
  | cons p t ih =>
      simp only [List.enumFrom, List.map_cons]
      rw [ih (n + 1)]
      rfl

theorem enumFrom_render_confidence (n : Nat) (l : List Prediction) :
    ((List.enumFrom n l).map fun ip => (renderRow ip.1 ip.2).confidenceText)
      = l.map Prediction.probability := by
  induction l generalizing n with
  | nil => rfl
  | cons p t ih =>
      simp only [List.enumFrom, List.map_cons]
      rw [ih (n + 1)]
      rfl

theorem enumFrom_render_barWidth (n : Nat) (l : List Prediction) :
    ((List.enumFrom n l).map fun ip => (renderRow ip.1 ip.2).barWidth)
      = l.map Prediction.probability := by
  induction l generalizing n with
  | nil => rfl
  | cons p t ih =>
      simp only [List.enumFrom, List.map_cons]
      rw [ih (n + 1)]
      rfl

theorem enumFrom_render_rank (n : Nat) (l : List Prediction) :
    ((List.enumFrom n l).map fun ip => (renderRow ip.1 ip.2).rank)
      = List.range' (n + 1) l.length := by
  induction l generalizing n with
  | nil => rfl
  | cons p t ih =>
      simp only [List.enumFrom, List.map_cons, List.length_cons, List.range'_succ]
      rw [ih (n + 1)]
      rfl

/-- Claim C9: rendering preserves the order of the predictions array and
shows each row's class label and probability value verbatim; the badge
numbers are 1, 2, ... in array order. -/
theorem C9_render_order (preds : List Prediction) :
    (displayPredictions preds).map PredictionRow.label = preds.map Prediction.cls
    ∧ (displayPredictions preds).map PredictionRow.confidenceText
        = preds.map Prediction.probability
    ∧ (displayPredictions preds).map PredictionRow.barWidth
        = preds.map Prediction.probability
    ∧ (displayPredictions preds).map PredictionRow.rank
        = List.range' 1 preds.length := by
  unfold displayPredictions
  refine ⟨?_, ?_, ?_, ?_⟩
  · rw [List.map_map]
    exact enumFrom_render_label 0 preds
  · rw [List.map_map]
    exact enumFrom_render_confidence 0 preds
  · rw [List.map_map]
    exact enumFrom_render_barWidth 0 preds
  · rw [List.map_map]
    exact enumFrom_render_rank 0 preds

/-- Claim C10: whenever `currentFile` is set it holds a file that passed
both validation checks, and every operation preserves this invariant. -/
theorem C10_invariant_preserved (s : ClassifierState)
    (h : fileInvariant s = true) :
    (∀ file, fileInvariant (handleFileSelect s file) = true)
    ∧ fileInvariant (clearFile s) = true
    ∧ (∀ outcome, fileInvariant (classifyImage s outcome).1 = true)
    ∧ fileInvariant (classifyStart s).1 = true := by
  refine ⟨?_, rfl, ?_, ?_⟩
  · intro file
    rcases file with _ | f
    · exact h
    · unfold handleFileSelect
      by_cases ht : isValidImageFile f
      · by_cases hs : f.size > 16 * 1024 * 1024
        · simpa [ht, hs, fileInvariant, showError] using h
        · simp only [ht, hs, Bool.not_true, Bool.false_eq_true, if_false, if_true]
          simp [fileInvariant, hideResults, showClassifyButton, displayFileInfo,
            fileOk, ht, decide_eq_true_eq]
          omega
      · simpa [ht, fileInvariant, showError] using h
  · intro outcome
    unfold fileInvariant
    rw [classifyImage_currentFile]
    exact h
  · unfold fileInvariant
    rw [classifyStart_currentFile]
    exact h

theorem C10_invariant_preserved_witness :
    fileInvariant (handleFileSelect initialState (some pngFileTooBig)) = true
    ∧ fileInvariant (clearFile initialState) = true :=
  ⟨(C10_invariant_preserved initialState rfl).1 (some pngFileTooBig),
   (C10_invariant_preserved initialState rfl).2.1⟩
